import Mathlib

/-!
Verification of the live navigation session engine of the tecsupNav backend.

The definitions below are a shallow embedding of the TypeScript source:
  - src/navigation/navigation.gateway.ts   (session registry, location-update pipeline)
  - src/navigation/navigation.service.ts   (route resolution, nearby-place queries)
  - src/custom-routes/custom-routes.controller.ts (findFastestRoute)
  - src/google-maps/google-maps.service.ts (haversine distance, campus bounds)
  - src/navigation/navigation-state.service.ts (session history)

Machine floats are modelled by exact rationals; the haversine formula itself
(transcendental) is modelled over the reals.  The external collaborators
(places cache contents, custom-route table, Google Directions provider, the
wall clock and the great-circle distance used by the pipeline) are passed in
an explicit environment, so every pipeline function is executable.
-/

/-- A GPS coordinate, `{lat, lng}` in the source. -/
structure Coord where
  lat : ℚ
  lng : ℚ
deriving DecidableEq, Repr

namespace TecsupNav

/-! ## Geo math: the haversine distance (google-maps.service.ts
`calculateDirectDistance`, identical text in navigation.gateway.ts
`calculateDistance`).  Modelled over the reals. -/

/-- JavaScript `Math.atan2(y, x)`. -/
noncomputable def atan2 (y x : ℝ) : ℝ :=
  if 0 < x then Real.arctan (y / x)
  else if x < 0 then
    (if 0 ≤ y then Real.arctan (y / x) + Real.pi else Real.arctan (y / x) - Real.pi)
  else if 0 < y then Real.pi / 2
  else if y < 0 then -(Real.pi / 2)
  else 0

/-- The intermediate quantity `a` of the haversine formula:
`sin(dPhi/2)*sin(dPhi/2) + cos(phi1)*cos(phi2)*sin(dLam/2)*sin(dLam/2)`. -/
noncomputable def havA (p1 p2 : Coord) : ℝ :=
  Real.sin (((p2.lat - p1.lat : ℚ) : ℝ) * Real.pi / 180 / 2) *
      Real.sin (((p2.lat - p1.lat : ℚ) : ℝ) * Real.pi / 180 / 2) +
    Real.cos ((p1.lat : ℝ) * Real.pi / 180) * Real.cos ((p2.lat : ℝ) * Real.pi / 180) *
      (Real.sin (((p2.lng - p1.lng : ℚ) : ℝ) * Real.pi / 180 / 2) *
        Real.sin (((p2.lng - p1.lng : ℚ) : ℝ) * Real.pi / 180 / 2))

/-- `calculateDirectDistance`: haversine great-circle distance in meters,
Earth radius 6,371,000 m: `R * 2 * atan2(sqrt(a), sqrt(1-a))`. -/
noncomputable def calculateDirectDistance (p1 p2 : Coord) : ℝ :=
  6371000 * (2 * atan2 (Real.sqrt (havA p1 p2)) (Real.sqrt (1 - havA p1 p2)))

theorem havA_comm (p1 p2 : Coord) : havA p1 p2 = havA p2 p1 := by
  unfold havA
  have hlat : ((p1.lat - p2.lat : ℚ) : ℝ) * Real.pi / 180 / 2 =
      -(((p2.lat - p1.lat : ℚ) : ℝ) * Real.pi / 180 / 2) := by
    push_cast
    ring
  have hlng : ((p1.lng - p2.lng : ℚ) : ℝ) * Real.pi / 180 / 2 =
      -(((p2.lng - p1.lng : ℚ) : ℝ) * Real.pi / 180 / 2) := by
    push_cast
    ring
  rw [hlat, hlng, Real.sin_neg, Real.sin_neg]
  ring

theorem havA_self (p : Coord) : havA p p = 0 := by
  unfold havA
  simp

theorem calculateDirectDistance_comm (p1 p2 : Coord) :
    calculateDirectDistance p1 p2 = calculateDirectDistance p2 p1 := by
  unfold calculateDirectDistance
  rw [havA_comm]

theorem atan2_zero_one : atan2 0 1 = 0 := by
  unfold atan2
  rw [if_pos (by norm_num : (0 : ℝ) < 1)]
  simp

theorem calculateDirectDistance_self (p : Coord) : calculateDirectDistance p p = 0 := by
  unfold calculateDirectDistance
  rw [havA_self]
  simp [atan2_zero_one]

/-! ## Data model

A place from the places cache (fields the navigation engine reads). -/

structure Place where
  id : String
  nombre : String
  latitud : ℚ
  longitud : ℚ
deriving DecidableEq, Repr

/-- The coordinate of a place. -/
def Place.coord (p : Place) : Coord := ⟨p.latitud, p.longitud⟩

/-- `PlaceWithDistance` as produced by `addDistance` in navigation.service.ts:
the place annotated with distance and walking time `ceil(distancia / 83.33)`. -/
structure PlaceWithDistance where
  id : String
  nombre : String
  latitud : ℚ
  longitud : ℚ
  distancia : ℚ
  tiempoEstimadoCaminando : ℤ
deriving DecidableEq, Repr

/-- A stored custom route row (custom-routes service). -/
structure CustomRoute where
  origenId : String
  destinoId : String
  puntos : List Coord
  distancia : ℚ
  tiempoEstimado : ℤ
  dificultad : Option String
  accesible : Bool
deriving DecidableEq, Repr

/-- The value returned by `findFastestRoute`: the stored row plus the
`isReversed` marker (points already reversed when the reverse-direction row
matched). -/
structure FastestRouteResult where
  origenId : String
  destinoId : String
  puntos : List Coord
  distancia : ℚ
  tiempoEstimado : ℤ
  dificultad : Option String
  accesible : Bool
  isReversed : Bool
deriving DecidableEq, Repr

/-- `RouteInfo` returned by the external Google Directions provider. -/
structure ProviderRoute where
  puntos : List Coord
  distancia : ℚ
  tiempoEstimado : ℤ
deriving DecidableEq, Repr

/-- The `route` part of a `NavigationResponse`. -/
structure RouteData where
  puntos : List Coord
  distancia : ℚ
  tiempoEstimado : ℤ
  dificultad : Option String
  accesible : Bool
deriving DecidableEq, Repr

/-- The `destination` part of a `NavigationResponse`. -/
structure DestinationInfo where
  id : String
  nombre : String
  latitud : ℚ
  longitud : ℚ
deriving DecidableEq, Repr

/-- `NavigationResponse` from `createRouteFromCurrentLocation` (the
instruction-text list, pure presentation, is elided). -/
structure NavigationResponse where
  route : RouteData
  destination : DestinationInfo
deriving DecidableEq, Repr

/-- The environment: external collaborators of the session engine.
`dist` is the haversine distance of the geo-math layer (both the gateway's
`calculateDistance` and the maps service's `calculateDirectDistance`
implement the same formula); `places` is the places cache; `customRoutes`
the custom-route table; `googleRoute` the external Directions provider
(`none` = provider failure); `nowMs` the wall clock in epoch milliseconds. -/
structure Env where
  dist : Coord → Coord → ℚ
  places : List Place
  customRoutes : List CustomRoute
  googleRoute : Coord → Coord → Option ProviderRoute
  nowMs : ℤ

/-! ## Place lookup (places-cache.service.ts, navigation.service.ts) -/

/-- `PlacesCacheService.findById`. -/
def findById (places : List Place) (id : String) : Option Place :=
  places.find? (fun p => p.id == id)

/-- `addDistance` (navigation.service.ts): distance 0 when no location given,
walking minutes `ceil(distancia / 83.33)`. -/
def addDistance (env : Env) (place : Place) (location : Option Coord) : PlaceWithDistance :=
  let distancia : ℚ :=
    match location with
    | some loc => env.dist loc place.coord
    | none => 0
  { id := place.id, nombre := place.nombre, latitud := place.latitud,
    longitud := place.longitud, distancia := distancia,
    tiempoEstimadoCaminando := ⌈distancia / (8333 / 100 : ℚ)⌉ }

/-- Stable insertion step for sorting places ascending by `distancia`. -/
def insertByDistancia (x : PlaceWithDistance) : List PlaceWithDistance → List PlaceWithDistance
  | [] => [x]
  | y :: ys => if y.distancia ≤ x.distancia then y :: insertByDistancia x ys else x :: y :: ys

/-- Stable sort ascending by `distancia` (the JS `sort((a,b) => a.distancia -
b.distancia)` is a stable ascending sort). -/
def sortByDistancia : List PlaceWithDistance → List PlaceWithDistance
  | [] => []
  | x :: xs => insertByDistancia x (sortByDistancia xs)

/-- `findNearbyPlaces`: annotate every cached place with its distance, keep
those within the radius, sort ascending by distance. -/
def findNearbyPlaces (env : Env) (location : Coord) (radius : ℚ) : List PlaceWithDistance :=
  sortByDistancia ((env.places.map (fun p => addDistance env p (some location))).filter
    (fun p => p.distancia ≤ radius))

/-- `findNearestPlace`: head of `findNearbyPlaces(location, 100)`. -/
def findNearestPlace (env : Env) (location : Coord) : Option PlaceWithDistance :=
  (findNearbyPlaces env location 100).head?

/-! ## Custom routes (custom-routes controller, `findFastestRoute`) -/

/-- Stable insertion step for sorting custom routes ascending by
`tiempoEstimado`. -/
def insertByTiempo (x : CustomRoute) : List CustomRoute → List CustomRoute
  | [] => [x]
  | y :: ys => if y.tiempoEstimado ≤ x.tiempoEstimado then y :: insertByTiempo x ys else x :: y :: ys

/-- Stable sort ascending by `tiempoEstimado` (models `orderBy tiempoEstimado
asc` of the Prisma query behind `findFirst`). -/
def sortByTiempo : List CustomRoute → List CustomRoute
  | [] => []
  | x :: xs => insertByTiempo x (sortByTiempo xs)

/-- `findFastestRoute(origenId, destinoId)`: first stored route matching either
direction, ordered by `tiempoEstimado` ascending; when the reverse-direction
row matched, its point sequence is reversed and `isReversed` set.  `none`
models the `NotFoundException`, which the navigation service catches. -/
def findFastestRoute (routes : List CustomRoute) (origenId destinoId : String) :
    Option FastestRouteResult :=
  let matching := routes.filter (fun r =>
    (r.origenId == origenId && r.destinoId == destinoId) ||
    (r.origenId == destinoId && r.destinoId == origenId))
  match (sortByTiempo matching).head? with
  | none => none
  | some r =>
    if r.origenId == destinoId then
      some { origenId := r.origenId, destinoId := r.destinoId,
             puntos := r.puntos.reverse, distancia := r.distancia,
             tiempoEstimado := r.tiempoEstimado, dificultad := r.dificultad,
             accesible := r.accesible, isReversed := true }
    else
      some { origenId := r.origenId, destinoId := r.destinoId,
             puntos := r.puntos, distancia := r.distancia,
             tiempoEstimado := r.tiempoEstimado, dificultad := r.dificultad,
             accesible := r.accesible, isReversed := false }

/-! ## Route resolution (navigation.service.ts,
`createRouteFromCurrentLocation`) -/

instance {ε α : Type} [DecidableEq ε] [DecidableEq α] : DecidableEq (Except ε α) := fun a b =>
  match a, b with
  | .ok x, .ok y => if h : x = y then isTrue (by rw [h]) else isFalse (by simp [h])
  | .error x, .error y => if h : x = y then isTrue (by rw [h]) else isFalse (by simp [h])
  | .ok _, .error _ => isFalse (by simp)
  | .error _, .ok _ => isFalse (by simp)

/-- The result of route resolution together with the list of external
provider invocations (each `(origen, destino)`); `.error` models the thrown
`NotFoundException`. -/
structure ResolveOut where
  result : Except String NavigationResponse
  providerCalls : List (Coord × Coord)
deriving DecidableEq, Repr

/-- The external branch of `createRouteFromCurrentLocation`: call the
provider; on failure fall back to the 2-point direct line with
`distancia = haversine(origin, destination)` and
`tiempoEstimado = ceil(distancia/1000 * 12)`.  The provider failure is
recovered here, never surfaced. -/
def externalRoute (env : Env) (currentLocation destCoord : Coord)
    (destInfo : DestinationInfo) (prefAccessible : Bool) : ResolveOut :=
  match env.googleRoute currentLocation destCoord with
  | some g =>
    ⟨.ok { route := { puntos := g.puntos, distancia := g.distancia,
                      tiempoEstimado := g.tiempoEstimado, dificultad := none,
                      accesible := prefAccessible },
           destination := destInfo },
      [(currentLocation, destCoord)]⟩
  | none =>
    let directDistance := env.dist currentLocation destCoord
    ⟨.ok { route := { puntos := [currentLocation, destCoord],
                      distancia := directDistance,
                      tiempoEstimado := ⌈directDistance / 1000 * 12⌉,
                      dificultad := none, accesible := false },
           destination := destInfo },
      [(currentLocation, destCoord)]⟩

/-- The custom-route lookup step of `createRouteFromCurrentLocation`: when the
nearest cached place is strictly within 50 m of the current location, ask the
custom-route table for a route between it and the destination. -/
def customRouteFor (env : Env) (currentLocation : Coord) (destId : String) :
    Option FastestRouteResult :=
  match findNearestPlace env currentLocation with
  | some np => if np.distancia < 50 then findFastestRoute env.customRoutes np.id destId else none
  | none => none

/-- `createRouteFromCurrentLocation` for the gateway's call shape (destination
given by id; the name-lookup branch is not exercised by the gateway):
resolve the destination, prefer a forward-stored custom route from the
nearest place, otherwise use the external provider with the direct-line
fallback. -/
def createRouteFromCurrentLocation (env : Env) (currentLocation : Coord)
    (destinationId : String) (prefAccessible : Bool) : ResolveOut :=
  match findById env.places destinationId with
  | none => ⟨.error "Destino no encontrado", []⟩
  | some destination =>
    let destCoord : Coord := ⟨destination.latitud, destination.longitud⟩
    let destInfo : DestinationInfo :=
      ⟨destination.id, destination.nombre, destination.latitud, destination.longitud⟩
    match customRouteFor env currentLocation destination.id with
    | some cr =>
      if cr.isReversed then
        externalRoute env currentLocation destCoord destInfo prefAccessible
      else
        ⟨.ok { route := { puntos := currentLocation :: cr.puntos,
                          distancia := cr.distancia,
                          tiempoEstimado := cr.tiempoEstimado,
                          dificultad := cr.dificultad, accesible := cr.accesible },
               destination := destInfo }, []⟩
    | none => externalRoute env currentLocation destCoord destInfo prefAccessible

/-! ## GPS validation and navigation progress (navigation.service.ts,
google-maps.service.ts) -/

/-- `validateCampusCoordinates`: the Tecsup campus bounding box. -/
def validateCampusCoordinates (c : Coord) : Bool :=
  decide (c.lat ≤ -12.042723 ∧ c.lat ≥ -12.045955 ∧
          c.lng ≤ -76.952193 ∧ c.lng ≥ -76.953192)

/-- `validateGPSLocation`: a falsy (zero) coordinate is rejected as
"GPS not enabled", then the campus-bounds check runs. -/
def validateGPSLocation (c : Coord) : Bool :=
  if c.lat = 0 ∨ c.lng = 0 then false
  else validateCampusCoordinates c

/-- The progress record of `getNavigationUpdate`. -/
structure NavUpdate where
  distanciaRestante : ℤ
  tiempoRestante : ℤ
  llegada : Bool
deriving DecidableEq, Repr

/-- `getNavigationUpdate`: remaining haversine distance to the destination,
`eta = ceil(rem / 83.33)`, arrival iff `rem < 10`; `NotFoundException`
(as `.error`) when the destination id is unknown. -/
def getNavigationUpdate (env : Env) (currentLocation : Coord) (destinationId : String) :
    Except String NavUpdate :=
  match findById env.places destinationId with
  | none => .error "Destino no encontrado"
  | some d =>
    let rem := env.dist currentLocation ⟨d.latitud, d.longitud⟩
    .ok { distanciaRestante := round rem,
          tiempoRestante := ⌈rem / (8333 / 100 : ℚ)⌉,
          llegada := decide (rem < 10) }

/-! ## The gateway (navigation.gateway.ts): session registry and handlers -/

/-- `NavigationSession` of the gateway.  `startTimeMs` is the `startTime`
date in epoch milliseconds. -/
structure NavigationSession where
  userId : String
  destinationId : String
  startLocation : Coord
  currentLocation : Coord
  startTimeMs : ℤ
  isActive : Bool
  route : Option NavigationResponse
deriving DecidableEq, Repr

/-- One entry of `NavigationStateService.sessionHistory`. -/
structure HistoryEntry where
  userId : String
  destinationId : String
  destinationName : String
  startTime : ℤ
  endTime : ℤ
  duration : ℤ
  status : String
deriving DecidableEq, Repr

/-- The mutable state of the engine: the `activeSessions` map (as an
association list keyed by user id), the set of connected client sockets
(by user id), and the session history held by `NavigationStateService`. -/
structure GatewayState where
  activeSessions : List (String × NavigationSession)
  clientSockets : List String
  sessionHistory : List HistoryEntry
deriving DecidableEq, Repr

/-- `activeSessions.get(userId)`. -/
def lookupSession (l : List (String × NavigationSession)) (u : String) :
    Option NavigationSession :=
  (l.find? (fun p => p.1 == u)).map (fun p => p.2)

/-- `activeSessions.set(userId, session)` (replace or insert). -/
def setSession (l : List (String × NavigationSession)) (u : String)
    (s : NavigationSession) : List (String × NavigationSession) :=
  l.filter (fun p => !(p.1 == u)) ++ [(u, s)]

/-- `activeSessions.delete(userId)`. -/
def deleteSession (l : List (String × NavigationSession)) (u : String) :
    List (String × NavigationSession) :=
  l.filter (fun p => !(p.1 == u))

/-- Events emitted to clients (payload fields the claims inspect). -/
inductive Event where
  | navigationError (code : String)
  | navigationStarted (destinationId : String)
  | navigationUpdate (loc : Coord) (distanciaRestante tiempoRestante : ℤ)
  | navigationCompleted (duration : ℤ)
  | routeDeviation (distance : WithTop ℚ)
  | routeRecalculated
  | nearbyPoint (placeId : String)
  | navigationPaused
  | navigationResumed
  | navigationCancelled
deriving DecidableEq

/-- The observable outcome of one handler run: the new state, the events
emitted to the client, the Route Resolver invocations
(`createRouteFromCurrentLocation`, each `(origin, destinationId)`), and the
external-provider invocations. -/
structure StepOut where
  state : GatewayState
  events : List Event
  resolverCalls : List (Coord × String)
  providerCalls : List (Coord × Coord)
deriving DecidableEq

/-- `endNavigation`: deletes the session from the registry.  It does not
touch the session history (no call to `recordSessionEnd` exists). -/
def endNavigation (st : GatewayState) (userId : String) : GatewayState :=
  { st with activeSessions := deleteSession st.activeSessions userId }

/-- `handleArrival`: requires a live socket; emits `navigation_completed`
with `stats.duration = ceil((now - startTime) ms / 60000)` minutes, then
ends the navigation. -/
def handleArrival (env : Env) (st : GatewayState) (userId : String)
    (session : NavigationSession) : StepOut :=
  if userId ∈ st.clientSockets then
    let durationMinutes : ℤ := ⌈((env.nowMs - session.startTimeMs : ℤ) : ℚ) / (1000 * 60)⌉
    ⟨endNavigation st userId, [.navigationCompleted durationMinutes], [], []⟩
  else ⟨st, [], [], []⟩

/-- The result of `checkRouteDeviation`.  `distance` is the minimum distance
from the current location to any route point, starting from `Infinity`
(modelled by `WithTop`). -/
structure Deviation where
  isDeviated : Bool
  distance : WithTop ℚ
deriving DecidableEq

/-- `checkRouteDeviation`: not deviated when the session has no route point
list; otherwise deviated iff the minimum distance to any route point
exceeds the 50 m threshold. -/
def checkRouteDeviation (env : Env) (session : NavigationSession) (loc : Coord) :
    Deviation :=
  match session.route with
  | none => ⟨false, ⊤⟩
  | some nav =>
    let minDistance := nav.route.puntos.foldl
      (fun m p => min m ((env.dist loc p : ℚ) : WithTop ℚ)) ⊤
    ⟨decide (((50 : ℚ) : WithTop ℚ) < minDistance), minDistance⟩

/-- `recalculateRoute`: re-invoke the Route Resolver with the current
location as origin; on success replace the session route wholesale and move
`currentLocation`; on failure emit `RECALCULATION_FAILED` and leave the
session untouched. -/
def recalculateRoute (env : Env) (st : GatewayState) (userId : String) (loc : Coord) :
    StepOut :=
  match lookupSession st.activeSessions userId with
  | none => ⟨st, [], [], []⟩
  | some session =>
    if userId ∈ st.clientSockets then
      let r := createRouteFromCurrentLocation env loc session.destinationId false
      match r.result with
      | .ok nav =>
        let session1 := { session with route := some nav, currentLocation := loc }
        ⟨{ st with activeSessions := setSession st.activeSessions userId session1 },
          [.routeRecalculated], [(loc, session.destinationId)], r.providerCalls⟩
      | .error _ =>
        ⟨st, [.navigationError "RECALCULATION_FAILED"],
          [(loc, session.destinationId)], r.providerCalls⟩
    else ⟨st, [], [], []⟩

/-- `checkNearbyPoints`: with a live socket, emit a `nearby_point` notice for
the closest cached place within 30 m, if any. -/
def checkNearbyPoints (env : Env) (st : GatewayState) (userId : String) (loc : Coord) :
    List Event :=
  if userId ∈ st.clientSockets then
    match (findNearbyPlaces env loc 30).head? with
    | some p => [.nearbyPoint p.id]
    | none => []
  else []

/-- `handleLocationUpdate`: the location-update pipeline.  Guard on an
active session, mutate `currentLocation`, compute progress, then in order:
arrival check (ending the run), deviation check with automatic
recalculation, progress event, proximity check. -/
def handleLocationUpdate (env : Env) (st : GatewayState) (userId : String) (loc : Coord) :
    StepOut :=
  match lookupSession st.activeSessions userId with
  | none => ⟨st, [.navigationError "NO_ACTIVE_SESSION"], [], []⟩
  | some session =>
    if !session.isActive then ⟨st, [.navigationError "NO_ACTIVE_SESSION"], [], []⟩
    else
      let session1 := { session with currentLocation := loc }
      let st1 := { st with activeSessions := setSession st.activeSessions userId session1 }
      match getNavigationUpdate env loc session.destinationId with
      | .error _ => ⟨st1, [.navigationError "UPDATE_FAILED"], [], []⟩
      | .ok upd =>
        if upd.llegada then handleArrival env st1 userId session1
        else
          let dev := checkRouteDeviation env session1 loc
          let step : StepOut :=
            if dev.isDeviated then
              let rec1 := recalculateRoute env st1 userId loc
              ⟨rec1.state, [.routeDeviation dev.distance] ++ rec1.events,
                rec1.resolverCalls, rec1.providerCalls⟩
            else ⟨st1, [], [], []⟩
          let evProgress := [Event.navigationUpdate loc upd.distanciaRestante upd.tiempoRestante]
          let evNear := checkNearbyPoints env step.state userId loc
          ⟨step.state, step.events ++ evProgress ++ evNear,
            step.resolverCalls, step.providerCalls⟩

/-- `handleStartNavigation`: validate the GPS location, resolve the route,
then create and register the session (replacing any prior one). -/
def handleStartNavigation (env : Env) (st : GatewayState) (userId : String)
    (destinationId : String) (currentLocation : Coord) (prefAccessible : Bool) :
    StepOut :=
  if !validateGPSLocation currentLocation then
    ⟨st, [.navigationError "GPS_INVALID"], [], []⟩
  else
    let r := createRouteFromCurrentLocation env currentLocation destinationId prefAccessible
    match r.result with
    | .error _ =>
      ⟨st, [.navigationError "START_FAILED"],
        [(currentLocation, destinationId)], r.providerCalls⟩
    | .ok nav =>
      let session : NavigationSession :=
        { userId := userId, destinationId := destinationId,
          startLocation := currentLocation, currentLocation := currentLocation,
          startTimeMs := env.nowMs, isActive := true, route := some nav }
      ⟨{ st with activeSessions := setSession st.activeSessions userId session },
        [.navigationStarted destinationId],
        [(currentLocation, destinationId)], r.providerCalls⟩

/-- `handlePauseNavigation`: set `isActive := false` when a session exists. -/
def handlePauseNavigation (st : GatewayState) (userId : String) : StepOut :=
  match lookupSession st.activeSessions userId with
  | some session =>
    let paused := { session with isActive := false }
    ⟨{ st with activeSessions := setSession st.activeSessions userId paused },
      [.navigationPaused], [], []⟩
  | none => ⟨st, [], [], []⟩

/-- `handleResumeNavigation`: set `isActive := true` when a session exists. -/
def handleResumeNavigation (st : GatewayState) (userId : String) : StepOut :=
  match lookupSession st.activeSessions userId with
  | some session =>
    let resumed := { session with isActive := true }
    ⟨{ st with activeSessions := setSession st.activeSessions userId resumed },
      [.navigationResumed], [], []⟩
  | none => ⟨st, [], [], []⟩

/-- `handleCancelNavigation`: end the navigation (delete, no-op when absent)
and acknowledge unconditionally. -/
def handleCancelNavigation (st : GatewayState) (userId : String) : StepOut :=
  ⟨endNavigation st userId, [.navigationCancelled], [], []⟩

/-- `NavigationStateService.recordSessionEnd`: appends a history entry with
`duration = ceil((endTime - startTime) ms / 60000)` minutes and keeps only
the most recent 1000 records.  No gateway path invokes it. -/
def recordSessionEnd (nowMs : ℤ) (hist : List HistoryEntry) (userId : String)
    (session : NavigationSession) (status : String) : List HistoryEntry :=
  let entry : HistoryEntry :=
    { userId := userId, destinationId := session.destinationId,
      destinationName := (session.route.map (fun n => n.destination.nombre)).getD "Desconocido",
      startTime := session.startTimeMs, endTime := nowMs,
      duration := ⌈((nowMs - session.startTimeMs : ℤ) : ℚ) / (1000 * 60)⌉,
      status := status }
  let h := hist ++ [entry]
  if h.length > 1000 then h.drop (h.length - 1000) else h

/-- Recognizer for `route_deviation` events. -/
def Event.isRouteDeviation : Event → Bool
  | .routeDeviation _ => true
  | _ => false

/-! ## Registry lemmas -/

theorem lookup_setSession (l : List (String × NavigationSession)) (u : String)
    (s : NavigationSession) : lookupSession (setSession l u s) u = some s := by
  unfold lookupSession setSession
  rw [List.find?_append]
  have h1 : (l.filter (fun p => !(p.1 == u))).find? (fun p => p.1 == u) = none := by
    rw [List.find?_eq_none]
    intro a ha
    have := (List.mem_filter.mp ha).2
    simp at this
    simp [this]
  rw [h1]
  simp

theorem lookup_deleteSession (l : List (String × NavigationSession)) (u : String) :
    lookupSession (deleteSession l u) u = none := by
  unfold lookupSession deleteSession
  have h1 : (l.filter (fun p => !(p.1 == u))).find? (fun p => p.1 == u) = none := by
    rw [List.find?_eq_none]
    intro a ha
    have := (List.mem_filter.mp ha).2
    simp at this
    simp [this]
  rw [h1]
  rfl

theorem deleteSession_absent (l : List (String × NavigationSession)) (u : String)
    (h : lookupSession l u = none) : deleteSession l u = l := by
  unfold lookupSession at h
  have h2 : l.find? (fun p => p.1 == u) = none := by
    cases hf : l.find? (fun p => p.1 == u) with
    | none => rfl
    | some p => rw [hf] at h; simp at h
  rw [List.find?_eq_none] at h2
  unfold deleteSession
  rw [List.filter_eq_self]
  intro a ha
  have := h2 a ha
  simpa using this

/-! ## Claim theorems -/

/-- C9: for all coordinate pairs the haversine great-circle distance
(Earth radius 6,371,000 m) satisfies distance(a,b) = distance(b,a), and
distance(a,a) = 0. -/
theorem claim_C9_distance_symmetric_and_zero_on_diagonal (a b : Coord) :
    calculateDirectDistance a b = calculateDirectDistance b a ∧
      calculateDirectDistance a a = 0 :=
  ⟨calculateDirectDistance_comm a b, calculateDirectDistance_self a⟩

/-- C10: a cancel message for a user with no session in the registry is not
an error: the state (registry included) is unchanged, no NotFound or
NoActiveSession error is reported, and the client still receives exactly the
navigation_cancelled acknowledgement. -/
theorem claim_C10_cancel_without_session_acknowledged (st : GatewayState) (u : String)
    (h : lookupSession st.activeSessions u = none) :
    handleCancelNavigation st u = ⟨st, [.navigationCancelled], [], []⟩ := by
  unfold handleCancelNavigation endNavigation
  rw [deleteSession_absent st.activeSessions u h]

theorem claim_C10_witness :
    lookupSession (GatewayState.mk [] ["u1"] []).activeSessions "u1" = none ∧
      handleCancelNavigation ⟨[], ["u1"], []⟩ "u1" =
        ⟨⟨[], ["u1"], []⟩, [.navigationCancelled], [], []⟩ :=
  ⟨rfl, claim_C10_cancel_without_session_acknowledged ⟨[], ["u1"], []⟩ "u1" rfl⟩

/-- C7: a location_update for a user whose session exists but is Paused
leaves the whole state (in particular the session and its currentLocation)
unchanged, emits exactly one NO_ACTIVE_SESSION error event, and runs no
pipeline step (no resolver or provider call). -/
theorem claim_C7_paused_session_update_rejected (env : Env) (st : GatewayState)
    (u : String) (loc : Coord) (s : NavigationSession)
    (hs : lookupSession st.activeSessions u = some s)
    (hp : s.isActive = false) :
    handleLocationUpdate env st u loc =
      ⟨st, [.navigationError "NO_ACTIVE_SESSION"], [], []⟩ := by
  unfold handleLocationUpdate
  rw [hs]
  simp [hp]

/-- C8: when the Route Resolver fails during a recalculation, a
RECALCULATION_FAILED notice is emitted, the state is completely unchanged
(the session keeps its route and every other field), and the session is
still present in the registry. -/
theorem claim_C8_recalculation_failure_preserves_session (env : Env)
    (st : GatewayState) (u : String) (loc : Coord) (s : NavigationSession)
    (e : String)
    (hconn : u ∈ st.clientSockets)
    (hs : lookupSession st.activeSessions u = some s)
    (hf : (createRouteFromCurrentLocation env loc s.destinationId false).result = .error e) :
    recalculateRoute env st u loc =
      ⟨st, [.navigationError "RECALCULATION_FAILED"], [(loc, s.destinationId)],
        (createRouteFromCurrentLocation env loc s.destinationId false).providerCalls⟩ ∧
      lookupSession (recalculateRoute env st u loc).state.activeSessions u = some s := by
  have hmain : recalculateRoute env st u loc =
      ⟨st, [.navigationError "RECALCULATION_FAILED"], [(loc, s.destinationId)],
        (createRouteFromCurrentLocation env loc s.destinationId false).providerCalls⟩ := by
    unfold recalculateRoute
    rw [hs]
    simp only [hconn, if_pos]
    rw [hf]
  exact ⟨hmain, by rw [hmain]; exact hs⟩

/-- Fixture session for the C7 witness. -/
def sessC7 : NavigationSession :=
  { userId := "u1", destinationId := "D", startLocation := ⟨0, 0⟩,
    currentLocation := ⟨0, 0⟩, startTimeMs := 0, isActive := false, route := none }

/-- Fixture state for the C7 witness. -/
def stC7 : GatewayState := ⟨[("u1", sessC7)], ["u1"], []⟩

/-- Fixture environment for the C7 witness. -/
def envC7 : Env := ⟨fun _ _ => 0, [], [], fun _ _ => none, 0⟩

theorem claim_C7_witness :
    lookupSession stC7.activeSessions "u1" = some sessC7 ∧ sessC7.isActive = false ∧
      handleLocationUpdate envC7 stC7 "u1" ⟨1, 1⟩ =
        ⟨stC7, [.navigationError "NO_ACTIVE_SESSION"], [], []⟩ :=
  ⟨rfl, rfl,
    claim_C7_paused_session_update_rejected envC7 stC7 "u1" ⟨1, 1⟩ sessC7 rfl rfl⟩

/-- Fixture session for the C8 witness. -/
def sessC8 : NavigationSession :=
  { userId := "u1", destinationId := "D", startLocation := ⟨0, 0⟩,
    currentLocation := ⟨0, 0⟩, startTimeMs := 0, isActive := true, route := none }

/-- Fixture state for the C8 witness. -/
def stC8 : GatewayState := ⟨[("u1", sessC8)], ["u1"], []⟩

/-- Fixture environment for the C8 witness: the places cache is empty, so the
resolver fails with "destination not found". -/
def envC8 : Env := ⟨fun _ _ => 0, [], [], fun _ _ => none, 0⟩

theorem claim_C8_witness :
    "u1" ∈ stC8.clientSockets ∧
      lookupSession stC8.activeSessions "u1" = some sessC8 ∧
      (createRouteFromCurrentLocation envC8 ⟨0, 0⟩ sessC8.destinationId false).result =
        .error "Destino no encontrado" ∧
      (recalculateRoute envC8 stC8 "u1" ⟨0, 0⟩ =
          ⟨stC8, [.navigationError "RECALCULATION_FAILED"],
            [(⟨0, 0⟩, sessC8.destinationId)],
            (createRouteFromCurrentLocation envC8 ⟨0, 0⟩ sessC8.destinationId false).providerCalls⟩ ∧
        lookupSession (recalculateRoute envC8 stC8 "u1" ⟨0, 0⟩).state.activeSessions "u1" =
          some sessC8) :=
  ⟨by decide, rfl, rfl,
    claim_C8_recalculation_failure_preserves_session envC8 stC8 "u1" ⟨0, 0⟩ sessC8
      "Destino no encontrado" (by decide) rfl rfl⟩

/-- C1: for an active connected session, a location update strictly within
10 m of the destination emits exactly one navigation_completed event whose
duration is the non-negative ceiling of the elapsed minutes, removes the
session from the registry, runs no later pipeline step (no deviation event,
progress event, proximity event, resolver or provider call), and a
subsequent update for the same user cannot complete again. -/
theorem claim_C1_arrival_completes_once (env : Env) (st : GatewayState)
    (u : String) (loc : Coord) (s : NavigationSession) (d : Place)
    (hs : lookupSession st.activeSessions u = some s)
    (hact : s.isActive = true)
    (hconn : u ∈ st.clientSockets)
    (hd : findById env.places s.destinationId = some d)
    (harr : env.dist loc ⟨d.latitud, d.longitud⟩ < 10)
    (hstart : s.startTimeMs ≤ env.nowMs) :
    (handleLocationUpdate env st u loc).events =
        [.navigationCompleted ⌈((env.nowMs - s.startTimeMs : ℤ) : ℚ) / (1000 * 60)⌉] ∧
      0 ≤ (⌈((env.nowMs - s.startTimeMs : ℤ) : ℚ) / (1000 * 60)⌉ : ℤ) ∧
      lookupSession (handleLocationUpdate env st u loc).state.activeSessions u = none ∧
      (handleLocationUpdate env st u loc).resolverCalls = [] ∧
      (handleLocationUpdate env st u loc).providerCalls = [] ∧
      ∀ loc2 : Coord,
        (handleLocationUpdate env (handleLocationUpdate env st u loc).state u loc2).events =
          [.navigationError "NO_ACTIVE_SESSION"] := by
  have hrun : handleLocationUpdate env st u loc =
      ⟨{ st with activeSessions :=
            deleteSession (setSession st.activeSessions u ({ s with currentLocation := loc })) u },
        [.navigationCompleted ⌈((env.nowMs - s.startTimeMs : ℤ) : ℚ) / (1000 * 60)⌉],
        [], []⟩ := by
    unfold handleLocationUpdate
    rw [hs]
    simp only [hact, Bool.not_true, Bool.false_eq_true, if_false]
    unfold getNavigationUpdate
    rw [hd]
    simp only [decide_eq_true harr]
    unfold handleArrival endNavigation
    simp [hconn]
  have hdur : (0 : ℤ) ≤ ⌈((env.nowMs - s.startTimeMs : ℤ) : ℚ) / (1000 * 60)⌉ := by
    apply Int.ceil_nonneg
    apply div_nonneg
    · exact_mod_cast sub_nonneg.mpr hstart
    · norm_num
  refine ⟨by rw [hrun], hdur, ?_, by rw [hrun], by rw [hrun], ?_⟩
  · rw [hrun]
    exact lookup_deleteSession _ u
  · intro loc2
    rw [hrun]
    unfold handleLocationUpdate
    rw [show lookupSession
        ({ st with activeSessions :=
            deleteSession (setSession st.activeSessions u ({ s with currentLocation := loc })) u }
          : GatewayState).activeSessions u = none from lookup_deleteSession _ u]

/-! ## Fold-minimum lemmas for the deviation check -/

theorem foldl_min_le_acc (f : Coord → ℚ) (l : List Coord) (acc : WithTop ℚ) :
    l.foldl (fun m p => min m ((f p : ℚ) : WithTop ℚ)) acc ≤ acc := by
  induction l generalizing acc with
  | nil => exact le_refl acc
  | cons x xs ih => exact le_trans (ih _) (min_le_left _ _)

theorem foldl_min_le_mem (f : Coord → ℚ) (l : List Coord) :
    ∀ (acc : WithTop ℚ) (p : Coord), p ∈ l →
      l.foldl (fun m q => min m ((f q : ℚ) : WithTop ℚ)) acc ≤ ((f p : ℚ) : WithTop ℚ) := by
  induction l with
  | nil =>
    intro acc p hp
    cases hp
  | cons x xs ih =>
    intro acc p hp
    rcases List.mem_cons.mp hp with h | h
    · subst h
      exact le_trans (foldl_min_le_acc f xs _) (min_le_right _ _)
    · exact ih _ p h

theorem lt_foldl_min (f : Coord → ℚ) (l : List Coord) (c : WithTop ℚ) :
    ∀ acc : WithTop ℚ, c < acc → (∀ p ∈ l, c < ((f p : ℚ) : WithTop ℚ)) →
      c < l.foldl (fun m q => min m ((f q : ℚ) : WithTop ℚ)) acc := by
  induction l with
  | nil =>
    intro acc hacc _
    exact hacc
  | cons x xs ih =>
    intro acc hacc h
    exact ih _ (lt_min hacc (h x (List.mem_cons_self x xs)))
      (fun p hp => h p (List.mem_cons_of_mem _ hp))

/-! ## Event-count helper lemmas -/

theorem recalculateRoute_no_deviation_events (env : Env) (st : GatewayState)
    (u : String) (loc : Coord) :
    (recalculateRoute env st u loc).events.countP Event.isRouteDeviation = 0 := by
  unfold recalculateRoute
  split
  · rfl
  · split
    · dsimp only
      split <;> simp [Event.isRouteDeviation]
    · rfl

theorem recalculateRoute_resolver_called (env : Env) (st : GatewayState)
    (u : String) (loc : Coord) (s : NavigationSession)
    (hs : lookupSession st.activeSessions u = some s)
    (hconn : u ∈ st.clientSockets) :
    (recalculateRoute env st u loc).resolverCalls = [(loc, s.destinationId)] := by
  unfold recalculateRoute
  rw [hs]
  simp only [hconn, if_pos]
  split <;> simp

theorem checkNearbyPoints_no_deviation_events (env : Env) (st : GatewayState)
    (u : String) (loc : Coord) :
    (checkNearbyPoints env st u loc).countP Event.isRouteDeviation = 0 := by
  unfold checkNearbyPoints
  split
  · split <;> simp [Event.isRouteDeviation]
  · rfl

/-- C2: on a processed location update for an active connected session with a
non-empty route point list (non-arrival case): if every route point is
farther than 50 m from the updated location (the minimum distance exceeds
50 m), exactly one route_deviation event fires and the Route Resolver is
re-invoked exactly once with the current location as origin; if every route
point is within 50 m, no deviation event fires and the resolver is not
invoked. -/
theorem claim_C2_deviation_threshold (env : Env) (st : GatewayState)
    (u : String) (loc : Coord) (s : NavigationSession) (d : Place)
    (nav : NavigationResponse)
    (hs : lookupSession st.activeSessions u = some s)
    (hact : s.isActive = true)
    (hconn : u ∈ st.clientSockets)
    (hd : findById env.places s.destinationId = some d)
    (hfar : ¬ env.dist loc ⟨d.latitud, d.longitud⟩ < 10)
    (hroute : s.route = some nav)
    (hne : nav.route.puntos ≠ []) :
    ((∀ p ∈ nav.route.puntos, 50 < env.dist loc p) →
        (handleLocationUpdate env st u loc).events.countP Event.isRouteDeviation = 1 ∧
          (handleLocationUpdate env st u loc).resolverCalls = [(loc, s.destinationId)]) ∧
      ((∀ p ∈ nav.route.puntos, env.dist loc p ≤ 50) →
        (handleLocationUpdate env st u loc).events.countP Event.isRouteDeviation = 0 ∧
          (handleLocationUpdate env st u loc).resolverCalls = []) := by
  constructor
  · intro hall
    have hmin : ((50 : ℚ) : WithTop ℚ) <
        nav.route.puntos.foldl (fun m q => min m ((env.dist loc q : ℚ) : WithTop ℚ)) ⊤ :=
      lt_foldl_min (env.dist loc) nav.route.puntos _ ⊤ (WithTop.coe_lt_top 50)
        (fun p hp => WithTop.coe_lt_coe.mpr (hall p hp))
    constructor
    · unfold handleLocationUpdate
      rw [hs]
      simp only [hact, Bool.not_true, Bool.false_eq_true, if_false]
      unfold getNavigationUpdate
      rw [hd]
      dsimp only
      simp only [decide_eq_true_eq]
      rw [if_neg hfar]
      unfold checkRouteDeviation
      dsimp only
      rw [hroute]
      dsimp only
      simp only [decide_eq_true_eq]
      rw [if_pos hmin]
      dsimp only
      simp [List.countP_append, List.countP_cons, Event.isRouteDeviation,
        recalculateRoute_no_deviation_events, checkNearbyPoints_no_deviation_events]
    · unfold handleLocationUpdate
      rw [hs]
      simp only [hact, Bool.not_true, Bool.false_eq_true, if_false]
      unfold getNavigationUpdate
      rw [hd]
      dsimp only
      simp only [decide_eq_true_eq]
      rw [if_neg hfar]
      unfold checkRouteDeviation
      dsimp only
      rw [hroute]
      dsimp only
      simp only [decide_eq_true_eq]
      rw [if_pos hmin]
      dsimp only
      exact recalculateRoute_resolver_called env _ u loc
        ({ userId := s.userId, destinationId := s.destinationId,
           startLocation := s.startLocation, currentLocation := loc,
           startTimeMs := s.startTimeMs, isActive := true, route := some nav })
        (lookup_setSession st.activeSessions u _) hconn
  · intro hall
    obtain ⟨p0, hp0⟩ := List.exists_mem_of_ne_nil nav.route.puntos hne
    have hmin : ¬ ((50 : ℚ) : WithTop ℚ) <
        nav.route.puntos.foldl (fun m q => min m ((env.dist loc q : ℚ) : WithTop ℚ)) ⊤ := by
      apply not_lt_of_le
      exact le_trans (foldl_min_le_mem (env.dist loc) nav.route.puntos ⊤ p0 hp0)
        (WithTop.coe_le_coe.mpr (hall p0 hp0))
    constructor
    · unfold handleLocationUpdate
      rw [hs]
      simp only [hact, Bool.not_true, Bool.false_eq_true, if_false]
      unfold getNavigationUpdate
      rw [hd]
      dsimp only
      simp only [decide_eq_true_eq]
      rw [if_neg hfar]
      unfold checkRouteDeviation
      dsimp only
      rw [hroute]
      dsimp only
      simp only [decide_eq_true_eq]
      rw [if_neg hmin]
      dsimp only
      simp [List.countP_append, List.countP_cons, Event.isRouteDeviation,
        checkNearbyPoints_no_deviation_events]
    · unfold handleLocationUpdate
      rw [hs]
      simp only [hact, Bool.not_true, Bool.false_eq_true, if_false]
      unfold getNavigationUpdate
      rw [hd]
      dsimp only
      simp only [decide_eq_true_eq]
      rw [if_neg hfar]
      unfold checkRouteDeviation
      dsimp only
      rw [hroute]
      dsimp only
      simp only [decide_eq_true_eq]
      rw [if_neg hmin]

/-- Fixture destination for the C1 witness. -/
def placeC1 : Place := ⟨"D", "Dest", 1, 1⟩

/-- Fixture session for the C1 witness. -/
def sessC1 : NavigationSession := ⟨"u1", "D", ⟨0, 0⟩, ⟨0, 0⟩, 0, true, none⟩

/-- Fixture state for the C1 witness. -/
def stC1 : GatewayState := ⟨[("u1", sessC1)], ["u1"], []⟩

/-- Fixture environment for the C1 witness: every distance is 5 m, so the
update is within the 10 m arrival threshold; one minute has elapsed. -/
def envC1 : Env := ⟨fun _ _ => 5, [placeC1], [], fun _ _ => none, 60000⟩

theorem claim_C1_witness :
    (handleLocationUpdate envC1 stC1 "u1" ⟨1, 1⟩).events =
        [.navigationCompleted ⌈((envC1.nowMs - sessC1.startTimeMs : ℤ) : ℚ) / (1000 * 60)⌉] ∧
      lookupSession (handleLocationUpdate envC1 stC1 "u1" ⟨1, 1⟩).state.activeSessions "u1" =
        none ∧
      (handleLocationUpdate envC1 stC1 "u1" ⟨1, 1⟩).resolverCalls = [] :=
  have h := claim_C1_arrival_completes_once envC1 stC1 "u1" ⟨1, 1⟩ sessC1 placeC1
    rfl rfl (by decide) rfl (by decide) (by decide)
  ⟨h.1, h.2.2.1, h.2.2.2.1⟩

/-- Fixture destination for the C2 witness. -/
def placeC2 : Place := ⟨"D", "Dest", 100, 100⟩

/-- Fixture navigation response for the C2 witness: a single route point. -/
def navC2 : NavigationResponse := ⟨⟨[⟨5, 5⟩], 60, 1, none, false⟩, ⟨"D", "Dest", 100, 100⟩⟩

/-- Fixture session for the C2 witness. -/
def sessC2 : NavigationSession := ⟨"u1", "D", ⟨0, 0⟩, ⟨0, 0⟩, 0, true, some navC2⟩

/-- Fixture state for the C2 witness. -/
def stC2 : GatewayState := ⟨[("u1", sessC2)], ["u1"], []⟩

/-- Fixture environment for the C2 witness: every distance is 60 m, so the
single route point is more than 50 m away and the update is not an arrival. -/
def envC2 : Env := ⟨fun _ _ => 60, [placeC2], [], fun _ _ => none, 0⟩

theorem claim_C2_witness :
    (handleLocationUpdate envC2 stC2 "u1" ⟨0, 0⟩).events.countP Event.isRouteDeviation = 1 ∧
      (handleLocationUpdate envC2 stC2 "u1" ⟨0, 0⟩).resolverCalls =
        [(⟨0, 0⟩, sessC2.destinationId)] :=
  (claim_C2_deviation_threshold envC2 stC2 "u1" ⟨0, 0⟩ sessC2 placeC2 navC2
    rfl rfl (by decide) rfl (by decide) rfl (by decide)).1 (by decide)

/-- C5: when the destination resolves, no forward-stored custom route
applies, and the external provider fails, route resolution succeeds (the
provider failure is never surfaced as an error) with the 2-point direct line
[origin, destination], distanceMeters equal to the haversine distance
between origin and destination, and durationMinutes equal to
ceil(distanceMeters/1000 * 12). -/
theorem claim_C5_direct_line_fallback (env : Env) (loc : Coord)
    (destId : String) (acc : Bool) (d : Place)
    (hd : findById env.places destId = some d)
    (hcr : ∀ cr, customRouteFor env loc d.id = some cr → cr.isReversed = true)
    (hprov : env.googleRoute loc ⟨d.latitud, d.longitud⟩ = none) :
    createRouteFromCurrentLocation env loc destId acc =
      ⟨.ok { route := { puntos := [loc, ⟨d.latitud, d.longitud⟩],
                        distancia := env.dist loc ⟨d.latitud, d.longitud⟩,
                        tiempoEstimado := ⌈env.dist loc ⟨d.latitud, d.longitud⟩ / 1000 * 12⌉,
                        dificultad := none, accesible := false },
             destination := ⟨d.id, d.nombre, d.latitud, d.longitud⟩ },
        [(loc, ⟨d.latitud, d.longitud⟩)]⟩ := by
  unfold createRouteFromCurrentLocation
  rw [hd]
  dsimp only
  cases hcrv : customRouteFor env loc d.id with
  | none =>
    dsimp only
    unfold externalRoute
    rw [hprov]
  | some cr =>
    dsimp only
    rw [hcr cr hcrv]
    simp only [if_true]
    unfold externalRoute
    rw [hprov]

/-- Fixture destination for the C5 witness, 200 m from the origin. -/
def placeC5 : Place := ⟨"d", "Dest", 1, 1⟩

/-- Fixture environment for the C5 witness: no custom routes, provider down,
every distance 200 m (so no cached place is within the 100 m nearest-place
radius either). -/
def envC5 : Env := ⟨fun _ _ => 200, [placeC5], [], fun _ _ => none, 0⟩

theorem claim_C5_witness :
    createRouteFromCurrentLocation envC5 ⟨0, 0⟩ "d" false =
      ⟨.ok { route := { puntos := [⟨0, 0⟩, ⟨1, 1⟩], distancia := 200, tiempoEstimado := 3,
                        dificultad := none, accesible := false },
             destination := ⟨"d", "Dest", 1, 1⟩ },
        [(⟨0, 0⟩, ⟨1, 1⟩)]⟩ := by
  have h := claim_C5_direct_line_fallback envC5 ⟨0, 0⟩ "d" false placeC5 (by decide)
    (fun cr hcr => by
      rw [show customRouteFor envC5 ⟨0, 0⟩ placeC5.id = none by decide] at hcr
      cases hcr)
    (by decide)
  rw [h]
  norm_num [envC5, placeC5, Int.ceil_eq_iff]

/-- Fixture place at the origin for C3. -/
def placeC3A : Place := ⟨"A", "Origin", 0, 0⟩

/-- Fixture destination place for C3. -/
def placeC3D : Place := ⟨"D", "Dest", 1, 0⟩

/-- Fixture custom route stored in the REVERSE direction (D → A) for the C3
counterexample. -/
def routeC3 : CustomRoute := ⟨"D", "A", [⟨1, 0⟩, ⟨0, 0⟩], 150, 2, none, false⟩

/-- Fixture environment for the C3 counterexample. -/
def envC3 : Env :=
  ⟨fun a b => if a = b then 0 else 1000,
   [placeC3A, placeC3D], [routeC3], fun _ _ => none, 0⟩

/-- C3 counterexample: the nearest place "A" is 0 m from the origin and a
custom route between "A" and destination "D" exists stored in the reverse
direction; findFastestRoute returns it with reversed points and isReversed
set, yet route resolution does not use it: the external provider is invoked
on this path (and, failing, the 2-point direct line is returned instead of
the origin-prepended reversed custom route), contradicting the claim. -/
theorem claim_C3_counterexample :
    (findNearestPlace envC3 ⟨0, 0⟩).map (fun p => p.id) = some "A" ∧
      (findNearestPlace envC3 ⟨0, 0⟩).map (fun p => p.distancia) = some 0 ∧
      findFastestRoute envC3.customRoutes "A" "D" =
        some ⟨"D", "A", [⟨0, 0⟩, ⟨1, 0⟩], 150, 2, none, false, true⟩ ∧
      (createRouteFromCurrentLocation envC3 ⟨0, 0⟩ "D" false).providerCalls =
        [(⟨0, 0⟩, ⟨1, 0⟩)] ∧
      ((createRouteFromCurrentLocation envC3 ⟨0, 0⟩ "D" false).result.toOption.map
          (fun n => n.route.puntos)) = some [⟨0, 0⟩, ⟨1, 0⟩] :=
  ⟨rfl, rfl, rfl, rfl, rfl⟩

/-- C3 (amended): when the nearest known place is strictly within 50 m of
the origin and the custom-route lookup returns a route stored in the FORWARD
direction, the custom route is used: the origin is prepended to its point
sequence and the external Route Provider is never called on this path.
(findFastestRoute does return reverse-stored routes with their point
sequence reversed and isReversed set, but route resolution ignores such
results and calls the external provider instead.) -/
theorem claim_C3_forward_custom_route_used (env : Env) (loc : Coord)
    (destId : String) (acc : Bool) (d : Place) (np : PlaceWithDistance)
    (cr : FastestRouteResult)
    (hd : findById env.places destId = some d)
    (hnp : findNearestPlace env loc = some np)
    (hlt : np.distancia < 50)
    (hcr : findFastestRoute env.customRoutes np.id d.id = some cr)
    (hfwd : cr.isReversed = false) :
    createRouteFromCurrentLocation env loc destId acc =
      ⟨.ok { route := { puntos := loc :: cr.puntos, distancia := cr.distancia,
                        tiempoEstimado := cr.tiempoEstimado,
                        dificultad := cr.dificultad, accesible := cr.accesible },
             destination := ⟨d.id, d.nombre, d.latitud, d.longitud⟩ }, []⟩ := by
  unfold createRouteFromCurrentLocation customRouteFor
  rw [hd]
  dsimp only
  rw [hnp]
  dsimp only
  rw [if_pos hlt, hcr]
  dsimp only
  rw [hfwd]
  simp only [Bool.false_eq_true, if_false]

/-- Fixture custom route stored in the FORWARD direction (A → D) for the C3
witness. -/
def routeC3w : CustomRoute := ⟨"A", "D", [⟨2, 0⟩, ⟨1, 0⟩], 150, 2, none, true⟩

/-- Fixture environment for the C3 witness. -/
def envC3w : Env :=
  ⟨fun a b => if a = b then 0 else 1000,
   [placeC3A, placeC3D], [routeC3w], fun _ _ => none, 0⟩

theorem claim_C3_witness :
    createRouteFromCurrentLocation envC3w ⟨0, 0⟩ "D" false =
      ⟨.ok { route := { puntos := [⟨0, 0⟩, ⟨2, 0⟩, ⟨1, 0⟩], distancia := 150,
                        tiempoEstimado := 2, dificultad := none, accesible := true },
             destination := ⟨"D", "Dest", 1, 0⟩ }, []⟩ := by
  have h := claim_C3_forward_custom_route_used envC3w ⟨0, 0⟩ "D" false placeC3D
    (addDistance envC3w placeC3A (some ⟨0, 0⟩))
    ⟨"A", "D", [⟨2, 0⟩, ⟨1, 0⟩], 150, 2, none, true, false⟩
    rfl rfl (by decide) (by decide) rfl
  rw [h]
  rfl

/-- Fixture session for C4. -/
def sessC4 : NavigationSession := ⟨"u1", "D", ⟨0, 0⟩, ⟨0, 0⟩, 0, true, none⟩

/-- Fixture state for C4: one active session, empty history. -/
def stC4 : GatewayState := ⟨[("u1", sessC4)], ["u1"], []⟩

/-- C4 counterexample: ending this session by cancellation removes it from
the registry, but the session history is empty before and after — no
SessionHistoryEntry is appended on termination (recordSessionEnd is never
invoked), contradicting the claim. -/
theorem claim_C4_counterexample :
    lookupSession (handleCancelNavigation stC4 "u1").state.activeSessions "u1" = none ∧
      stC4.sessionHistory = [] ∧
      (handleCancelNavigation stC4 "u1").state.sessionHistory = [] :=
  ⟨rfl, rfl, rfl⟩

/-- C4 (amended): session termination — arrival-completion or explicit
cancellation — removes the session from the registry but appends nothing to
the session history (no termination path invokes recordSessionEnd);
recordSessionEnd itself, when invoked with fewer than 1000 stored records,
appends exactly one entry whose duration is the ceiling of the wall-clock
delta in minutes. -/
theorem claim_C4_termination_removes_but_records_nothing (env : Env)
    (st : GatewayState) (u : String) (s : NavigationSession) (status : String)
    (hconn : u ∈ st.clientSockets)
    (hlen : st.sessionHistory.length < 1000) :
    lookupSession (handleCancelNavigation st u).state.activeSessions u = none ∧
      (handleCancelNavigation st u).state.sessionHistory = st.sessionHistory ∧
      lookupSession (handleArrival env st u s).state.activeSessions u = none ∧
      (handleArrival env st u s).state.sessionHistory = st.sessionHistory ∧
      recordSessionEnd env.nowMs st.sessionHistory u s status =
        st.sessionHistory ++
          [{ userId := u, destinationId := s.destinationId,
             destinationName := (s.route.map (fun n => n.destination.nombre)).getD "Desconocido",
             startTime := s.startTimeMs, endTime := env.nowMs,
             duration := ⌈((env.nowMs - s.startTimeMs : ℤ) : ℚ) / (1000 * 60)⌉,
             status := status }] := by
  have harr : handleArrival env st u s =
      ⟨endNavigation st u,
        [.navigationCompleted ⌈((env.nowMs - s.startTimeMs : ℤ) : ℚ) / (1000 * 60)⌉],
        [], []⟩ := by
    unfold handleArrival
    rw [if_pos hconn]
  refine ⟨lookup_deleteSession st.activeSessions u, rfl, ?_, ?_, ?_⟩
  · rw [harr]
    exact lookup_deleteSession st.activeSessions u
  · rw [harr]
    rfl
  · unfold recordSessionEnd
    dsimp only
    split
    · rename_i hgt
      exfalso
      simp only [List.length_append, List.length_singleton] at hgt
      omega
    · rfl

/-- Fixture environment for the C4 witness: one minute on the clock. -/
def envC4 : Env := ⟨fun _ _ => 0, [], [], fun _ _ => none, 60000⟩

theorem claim_C4_witness :
    lookupSession (handleCancelNavigation stC4 "u1").state.activeSessions "u1" = none ∧
      (handleCancelNavigation stC4 "u1").state.sessionHistory = stC4.sessionHistory ∧
      lookupSession (handleArrival envC4 stC4 "u1" sessC4).state.activeSessions "u1" = none ∧
      (handleArrival envC4 stC4 "u1" sessC4).state.sessionHistory = stC4.sessionHistory ∧
      recordSessionEnd envC4.nowMs stC4.sessionHistory "u1" sessC4 "completed" =
        stC4.sessionHistory ++
          [{ userId := "u1", destinationId := sessC4.destinationId,
             destinationName := (sessC4.route.map (fun n => n.destination.nombre)).getD "Desconocido",
             startTime := sessC4.startTimeMs, endTime := envC4.nowMs,
             duration := ⌈((envC4.nowMs - sessC4.startTimeMs : ℤ) : ℚ) / (1000 * 60)⌉,
             status := "completed" }] :=
  claim_C4_termination_removes_but_records_nothing envC4 stC4 "u1" sessC4 "completed"
    (by decide) (by decide)

/-- Whenever a location update on an active session leaves the session in
the registry, its currentLocation is exactly the received coordinates: no
coordinate validation happens anywhere on the location_update path. -/
theorem locationUpdate_overwrites_location (env : Env) (st : GatewayState)
    (u : String) (loc : Coord) (s : NavigationSession)
    (hs : lookupSession st.activeSessions u = some s)
    (hact : s.isActive = true) :
    ∀ s2, lookupSession (handleLocationUpdate env st u loc).state.activeSessions u = some s2 →
      s2.currentLocation = loc := by
  intro s2 h2
  unfold handleLocationUpdate at h2
  rw [hs] at h2
  simp only [hact, Bool.not_true, Bool.false_eq_true, if_false] at h2
  split at h2
  · dsimp only at h2
    rw [lookup_setSession] at h2
    injection h2 with h2
    subst h2
    rfl
  · split at h2
    · unfold handleArrival at h2
      split at h2
      · unfold endNavigation at h2
        dsimp only at h2
        rw [lookup_deleteSession] at h2
        cases h2
      · dsimp only at h2
        rw [lookup_setSession] at h2
        injection h2 with h2
        subst h2
        rfl
    · dsimp only at h2
      split at h2
      · unfold recalculateRoute at h2
        split at h2
        · dsimp only at h2
          rw [lookup_setSession] at h2
          injection h2 with h2
          subst h2
          rfl
        · split at h2
          · dsimp only at h2
            split at h2
            · dsimp only at h2
              rw [lookup_setSession] at h2
              injection h2 with h2
              subst h2
              rfl
            · dsimp only at h2
              rw [lookup_setSession] at h2
              injection h2 with h2
              subst h2
              rfl
          · dsimp only at h2
            rw [lookup_setSession] at h2
            injection h2 with h2
            subst h2
            rfl
      · dsimp only at h2
        rw [lookup_setSession] at h2
        injection h2 with h2
        subst h2
        rfl

/-- C6 (amended): start_navigation rejects out-of-range coordinates (lat
outside [-90,90] or lng outside [-180,180]; the campus-bounds check subsumes
the range check) before any state mutation; location_update, however,
performs no coordinate validation at all: on an active session the received
coordinates — valid or not — always overwrite currentLocation whenever the
session survives the update. -/
theorem claim_C6_validation_only_on_start (env : Env) (st : GatewayState)
    (u destId : String) (loc : Coord) (acc : Bool) (s : NavigationSession)
    (hbad : loc.lat < -90 ∨ 90 < loc.lat ∨ loc.lng < -180 ∨ 180 < loc.lng)
    (hs : lookupSession st.activeSessions u = some s)
    (hact : s.isActive = true) :
    handleStartNavigation env st u destId loc acc =
        ⟨st, [.navigationError "GPS_INVALID"], [], []⟩ ∧
      ∀ s2, lookupSession (handleLocationUpdate env st u loc).state.activeSessions u = some s2 →
        s2.currentLocation = loc := by
  constructor
  · have hval : validateGPSLocation loc = false := by
      unfold validateGPSLocation
      by_cases h0 : loc.lat = 0 ∨ loc.lng = 0
      · rw [if_pos h0]
      · rw [if_neg h0]
        unfold validateCampusCoordinates
        apply decide_eq_false
        rintro ⟨h1, h2, h3, h4⟩
        rcases hbad with h | h | h | h
        · linarith
        · linarith
        · linarith
        · linarith
    unfold handleStartNavigation
    rw [hval]
    simp
  · exact locationUpdate_overwrites_location env st u loc s hs hact

/-- Fixture destination for C6. -/
def placeC6 : Place := ⟨"D", "Dest", 1, 1⟩

/-- Fixture session for C6. -/
def sessC6 : NavigationSession := ⟨"u1", "D", ⟨0, 0⟩, ⟨0, 0⟩, 0, true, none⟩

/-- Fixture state for C6. -/
def stC6 : GatewayState := ⟨[("u1", sessC6)], ["u1"], []⟩

/-- Fixture environment for C6. -/
def envC6 : Env :=
  ⟨fun a b => if a = b then 0 else 1000, [placeC6], [], fun _ _ => none, 0⟩

/-- C6 counterexample: a location_update carrying the out-of-range latitude
999 is not rejected: it mutates the session, whose currentLocation becomes
(999, 0) — contradicting "rejected before any state mutation". -/
theorem claim_C6_counterexample :
    (90 : ℚ) < 999 ∧
      lookupSession (handleLocationUpdate envC6 stC6 "u1" ⟨999, 0⟩).state.activeSessions "u1" =
        some { userId := "u1", destinationId := "D", startLocation := ⟨0, 0⟩,
               currentLocation := ⟨999, 0⟩, startTimeMs := 0, isActive := true,
               route := none } :=
  ⟨by norm_num, rfl⟩

theorem claim_C6_witness :
    handleStartNavigation envC6 stC6 "u1" "D" ⟨999, 0⟩ false =
        ⟨stC6, [.navigationError "GPS_INVALID"], [], []⟩ ∧
      ({ userId := "u1", destinationId := "D", startLocation := ⟨0, 0⟩,
         currentLocation := ⟨999, 0⟩, startTimeMs := 0, isActive := true,
         route := none } : NavigationSession).currentLocation = ⟨999, 0⟩ :=
  have h := claim_C6_validation_only_on_start envC6 stC6 "u1" "D" ⟨999, 0⟩ false sessC6
    (Or.inr (Or.inl (by norm_num))) rfl rfl
  ⟨h.1, h.2 _ rfl⟩

end TecsupNav
